import Mathlib

/-!
Verification of the drone-nmap importer: a shallow embedding of the Go
source (the legacy `main` package and the newer `project` package) as
Lean functions, together with theorems settling the claims of the
specification about the Mapper (`BuildProject` / `buildProject`) and the
Importer (`ImportProject` / `getOptions` and the response handling in
`main`).
-/

set_option maxHeartbeats 1000000
set_option linter.dupNamespace false

/-! ## Input data model: the parsed nmap run (go-nmap structs, fields used) -/

namespace Nmap

structure Address where
  Addr : String
  AddrType : String
deriving DecidableEq

structure Hostname where
  Name : String
deriving DecidableEq

structure Status where
  State : String
deriving DecidableEq

structure ServiceInfo where
  Name : String
  Product : String
  Version : String
deriving DecidableEq

structure Script where
  Id : String
  Output : String
deriving DecidableEq

structure PortState where
  State : String
deriving DecidableEq

structure Port where
  PortId : Nat
  Protocol : String
  State : PortState
  Service : ServiceInfo
  Scripts : List Script
deriving DecidableEq

structure OsMatch where
  Name : String
deriving DecidableEq

/-- The OS-detection result. The current go-nmap names the candidate
list `OsMatches`; the legacy vendored version names the same list
`OsMatch`. Both variants read this list. -/
structure Os where
  OsMatches : List OsMatch
deriving DecidableEq

structure Host where
  Status : Status
  Addresses : List Address
  Hostnames : List Hostname
  Ports : List Port
  Os : Os
deriving DecidableEq

structure Run where
  Args : String
  Hosts : List Host
deriving DecidableEq

end Nmap

/-! ## Output data model: the lair project (go-lair structs, fields used
by the newer `project` package) -/

namespace Lair

structure Note where
  Title : String
  Content : String
  LastModifiedBy : String
deriving DecidableEq

structure Service where
  Port : Nat
  Protocol : String
  Service : String
  Product : String
  Notes : List Note
deriving DecidableEq

structure OS where
  Tool : String
  Weight : Nat
  Fingerprint : String
deriving DecidableEq

structure Command where
  Tool : String
  Command : String
deriving DecidableEq

structure Host where
  Tags : List String
  IPv4 : String
  MAC : String
  Hostnames : List String
  Services : List Service
  OS : Lair.OS
deriving DecidableEq

structure Project where
  ID : String
  Tool : String
  Commands : List Command
  Hosts : List Host
deriving DecidableEq

end Lair

/-! ## The newer Mapper: `BuildProject` from the `project` package -/

def tool : String := "nmap"

def osWeight : Nat := 50

/-- The body of the port loop for an open port: build a `lair.Service`
with port/protocol always copied, service/product per the nested
if-chain of the source, and one Note per NSE script. In Go the fields
start at their zero values and are assigned in place. -/
def buildService (p : Nmap.Port) : Lair.Service :=
  let service : Lair.Service :=
    { Port := p.PortId, Protocol := p.Protocol
      Service := "", Product := "", Notes := [] }
  let service :=
    if p.Service.Name ≠ "" then
      { service with
        Service := p.Service.Name
        Product :=
          if p.Service.Product ≠ "" then
            if p.Service.Version ≠ "" then
              p.Service.Product ++ " " ++ p.Service.Version
            else p.Service.Product
          else "Unknown" }
    else service
  { service with
    Notes := p.Scripts.map (fun s =>
      { Title := s.Id, Content := s.Output, LastModifiedBy := tool }) }

/-- One iteration of the port loop: ports whose state is not "open" are
skipped (`continue`), open ports append a Service to the host. -/
def addService (host : Lair.Host) (p : Nmap.Port) : Lair.Host :=
  if p.State.State ≠ "open" then host
  else { host with Services := host.Services ++ [buildService p] }

/-- One iteration of the address loop: the switch assigns the ipv4-typed
address to IPv4 and the mac-typed address to MAC, so a later entry of
the same type overwrites an earlier one. -/
def scanAddress (acc : String × String) (a : Nmap.Address) : String × String :=
  if a.AddrType = "ipv4" then (a.Addr, acc.2)
  else if a.AddrType = "mac" then (acc.1, a.Addr)
  else acc

/-- The body of the host loop for a host whose status is "up": tags are
attached at construction, the address list is scanned once, hostnames
are copied in order, ports are folded through `addService`, and the OS
field is assigned from the first OS match when one exists (otherwise it
keeps the Go zero value of `lair.OS`). -/
def buildHost (tags : List String) (h : Nmap.Host) : Lair.Host :=
  let addrs := h.Addresses.foldl scanAddress ("", "")
  let host : Lair.Host :=
    { Tags := tags, IPv4 := addrs.1, MAC := addrs.2
      Hostnames := h.Hostnames.map Nmap.Hostname.Name
      Services := []
      OS := { Tool := "", Weight := 0, Fingerprint := "" } }
  let host := h.Ports.foldl addService host
  match h.Os.OsMatches with
  | [] => host
  | m :: _ =>
    { host with OS := { Tool := tool, Weight := osWeight, Fingerprint := m.Name } }

/-- One iteration of the host loop: hosts whose status is not "up" are
skipped (`continue`), live hosts append a Host to the project. -/
def addHost (tags : List String) (project : Lair.Project) (h : Nmap.Host) : Lair.Project :=
  if h.Status.State ≠ "up" then project
  else { project with Hosts := project.Hosts ++ [buildHost tags h] }

/-- `BuildProject` of the `project` package. The Go function also
returns an error which is always nil, so the embedding returns the
project directly. -/
def BuildProject (run : Nmap.Run) (projectID : String) (tags : List String) : Lair.Project :=
  run.Hosts.foldl (addHost tags)
    { ID := projectID, Tool := tool
      Commands := [{ Tool := tool, Command := run.Args }]
      Hosts := [] }

/-! ## Fold characterizations -/

theorem foldl_addService_eq (ports : List Nmap.Port) : ∀ (host : Lair.Host),
    ports.foldl addService host =
      { host with Services := host.Services ++
          (ports.filter (fun p => decide (p.State.State = "open"))).map buildService } := by
  induction ports with
  | nil => intro host; simp
  | cons p ps ih =>
    intro host
    by_cases hp : p.State.State = "open"
    · simp [addService, hp, ih, List.filter_cons]
    · simp [addService, hp, ih, List.filter_cons]

theorem foldl_addHost_eq (hs : List Nmap.Host) (tags : List String) :
    ∀ (project : Lair.Project),
    hs.foldl (addHost tags) project =
      { project with Hosts := project.Hosts ++
          (hs.filter (fun h => decide (h.Status.State = "up"))).map (buildHost tags) } := by
  induction hs with
  | nil => intro project; simp
  | cons h hs ih =>
    intro project
    by_cases hup : h.Status.State = "up"
    · simp [addHost, hup, ih, List.filter_cons]
    · simp [addHost, hup, ih, List.filter_cons]

theorem BuildProject_Hosts (run : Nmap.Run) (projectID : String) (tags : List String) :
    (BuildProject run projectID tags).Hosts =
      (run.Hosts.filter (fun h => decide (h.Status.State = "up"))).map (buildHost tags) := by
  simp [BuildProject, foldl_addHost_eq]

/-- Claim C1: a Host is emitted if and only if the source host has
status state "up"; dropped hosts cause no error (the mapping is total),
and the emitted list is the in-order image of exactly the "up" hosts. -/
theorem C1_host_emitted_iff_up (run : Nmap.Run) (projectID : String) (tags : List String) :
    (BuildProject run projectID tags).Hosts =
      (run.Hosts.filter (fun h => decide (h.Status.State = "up"))).map (buildHost tags) :=
  BuildProject_Hosts run projectID tags

/-- Full characterization of the host-loop body as a record of its
field values. -/
theorem buildHost_eq (tags : List String) (h : Nmap.Host) :
    buildHost tags h =
      { Tags := tags
        IPv4 := (h.Addresses.foldl scanAddress ("", "")).1
        MAC := (h.Addresses.foldl scanAddress ("", "")).2
        Hostnames := h.Hostnames.map Nmap.Hostname.Name
        Services :=
          (h.Ports.filter (fun p => decide (p.State.State = "open"))).map buildService
        OS :=
          match h.Os.OsMatches with
          | [] => { Tool := "", Weight := 0, Fingerprint := "" }
          | m :: _ => { Tool := tool, Weight := osWeight, Fingerprint := m.Name } } := by
  cases hm : h.Os.OsMatches <;> simp [buildHost, hm, foldl_addService_eq]

/-- Claim C2: within an emitted Host a Service is emitted if and only if
the source port state is "open" (the service list is the in-order image
of exactly the open ports), and an "up" host with no open ports is
still emitted, with an empty service list. -/
theorem C2_service_emitted_iff_open (run : Nmap.Run) (projectID : String)
    (tags : List String) (h : Nmap.Host)
    (hmem : h ∈ run.Hosts) (hup : h.Status.State = "up") :
    buildHost tags h ∈ (BuildProject run projectID tags).Hosts ∧
    (buildHost tags h).Services =
      (h.Ports.filter (fun p => decide (p.State.State = "open"))).map buildService ∧
    ((∀ p ∈ h.Ports, p.State.State ≠ "open") → (buildHost tags h).Services = []) := by
  refine ⟨?_, ?_, ?_⟩
  · rw [BuildProject_Hosts]
    exact List.mem_map_of_mem _ (List.mem_filter.mpr ⟨hmem, by simp [hup]⟩)
  · simp [buildHost_eq]
  · intro hall
    have hfil : h.Ports.filter (fun p => decide (p.State.State = "open")) = [] := by
      rw [List.filter_eq_nil_iff]
      intro p hp
      simp [hall p hp]
    simp [buildHost_eq, hfil]

/-- Claim C3: the product rules of the service mapping. With no service
name the product stays empty; with a service name but no product the
product is the literal "Unknown"; with a product but no version it is
the product name unmodified; with both it is the product, a space, and
the version. -/
theorem C3_product_rules (p : Nmap.Port) :
    (p.Service.Name = "" → (buildService p).Product = "") ∧
    (p.Service.Name ≠ "" → p.Service.Product = "" →
      (buildService p).Product = "Unknown") ∧
    (p.Service.Name ≠ "" → p.Service.Product ≠ "" → p.Service.Version = "" →
      (buildService p).Product = p.Service.Product) ∧
    (p.Service.Name ≠ "" → p.Service.Product ≠ "" → p.Service.Version ≠ "" →
      (buildService p).Product = p.Service.Product ++ " " ++ p.Service.Version) := by
  refine ⟨fun h1 => ?_, fun h1 h2 => ?_, fun h1 h2 h3 => ?_, fun h1 h2 h3 => ?_⟩
  · simp [buildService, h1]
  · simp [buildService, h1, h2]
  · simp [buildService, h1, h2, h3]
  · simp [buildService, h1, h2, h3]

/-! ## Address selection: last-write-wins per address type -/

/-- The address of the last entry of the given type in the address
list, or the empty string when no such entry exists (stated from the
specification wording, as the comparison point for the scan loop). -/
def lastAddrOfType (t : String) (addrs : List Nmap.Address) : String :=
  match addrs.reverse.find? (fun a => a.AddrType == t) with
  | some a => a.Addr
  | none => ""

theorem foldl_last_eq (q : Nmap.Address → Bool) (addrs : List Nmap.Address) :
    ∀ (d : String),
    addrs.foldl (fun acc a => if q a then a.Addr else acc) d =
      match addrs.reverse.find? q with
      | some a => a.Addr
      | none => d := by
  induction addrs using List.reverseRecOn with
  | nil => intro d; simp
  | append_singleton as a ih =>
    intro d
    by_cases hq : q a
    · simp [List.foldl_append, List.reverse_append, List.find?_cons, hq]
    · simp [List.foldl_append, List.reverse_append, List.find?_cons, hq, ih]

theorem foldl_scanAddress_eq (addrs : List Nmap.Address) :
    ∀ (acc : String × String),
    addrs.foldl scanAddress acc =
      (addrs.foldl (fun d a => if a.AddrType == "ipv4" then a.Addr else d) acc.1,
       addrs.foldl (fun d a => if a.AddrType == "mac" then a.Addr else d) acc.2) := by
  induction addrs with
  | nil => intro acc; simp
  | cons a as ih =>
    intro acc
    rw [List.foldl_cons, List.foldl_cons, List.foldl_cons, ih]
    by_cases h4 : a.AddrType = "ipv4"
    · simp [scanAddress, h4]
    · by_cases hm : a.AddrType = "mac"
      · simp [scanAddress, h4, hm]
      · simp [scanAddress, h4, hm]

theorem buildHost_IPv4 (tags : List String) (h : Nmap.Host) :
    (buildHost tags h).IPv4 = lastAddrOfType "ipv4" h.Addresses := by
  rw [buildHost_eq]
  show (h.Addresses.foldl scanAddress ("", "")).1 = _
  rw [foldl_scanAddress_eq, foldl_last_eq]
  rfl

theorem buildHost_MAC (tags : List String) (h : Nmap.Host) :
    (buildHost tags h).MAC = lastAddrOfType "mac" h.Addresses := by
  rw [buildHost_eq]
  show (h.Addresses.foldl scanAddress ("", "")).2 = _
  rw [foldl_scanAddress_eq]
  show h.Addresses.foldl (fun d a => if a.AddrType == "mac" then a.Addr else d) "" = _
  rw [foldl_last_eq]
  rfl

/-- Claim C6: for every mapped Host the IPv4 field is the address of
the last ipv4-typed entry of the source address list and the MAC field
is the address of the last mac-typed entry, each the empty string when
no entry of that type exists; a missing address type is not an error. -/
theorem C6_last_write_wins (tags : List String) (h : Nmap.Host) :
    (buildHost tags h).IPv4 = lastAddrOfType "ipv4" h.Addresses ∧
    (buildHost tags h).MAC = lastAddrOfType "mac" h.Addresses :=
  ⟨buildHost_IPv4 tags h, buildHost_MAC tags h⟩

/-- Claim C7: when the source host has at least one OS candidate the
mapped OS record carries the tool constant, the fixed confidence
weight, and the name of the first candidate as fingerprint, however
many candidates exist; with no candidates the OS field keeps the Go
zero value of the OS record (no OS information attached). -/
theorem C7_os_first_candidate (tags : List String) (h : Nmap.Host) :
    (∀ c cs, h.Os.OsMatches = c :: cs →
      (buildHost tags h).OS =
        { Tool := tool, Weight := osWeight, Fingerprint := c.Name }) ∧
    (h.Os.OsMatches = [] →
      (buildHost tags h).OS = { Tool := "", Weight := 0, Fingerprint := "" }) := by
  constructor
  · intro c cs hcs
    rw [buildHost_eq]
    simp [hcs]
  · intro hnil
    rw [buildHost_eq]
    simp [hnil]

/-- Claim C8: every Host emitted by the Mapper carries exactly the
supplied tags list, with no per-host variation; in particular with an
empty tags list every emitted Host has an empty tag list. -/
theorem C8_tags_uniform (run : Nmap.Run) (projectID : String) (tags : List String) :
    ∀ host ∈ (BuildProject run projectID tags).Hosts, host.Tags = tags := by
  intro host hmem
  rw [BuildProject_Hosts] at hmem
  obtain ⟨h, -, rfl⟩ := List.mem_map.mp hmem
  rw [buildHost_eq]

/-! ## The legacy Mapper: `buildProject` from the `main` package -/

namespace Legacy

def TOOL : String := "Nmap"

def OSWEIGHT : Nat := 50

/-- The legacy `lair.Port` shape: it carries an Alive flag and names the
service list entries Ports. -/
structure Port where
  Port : Nat
  Protocol : String
  Alive : Bool
  Service : String
  Product : String
  Notes : List Lair.Note
deriving DecidableEq

/-- The legacy `lair.Host` shape: it carries an Alive flag, names the
addresses StringAddr/MacAddr, and holds a list of OS records. -/
structure Host where
  Alive : Bool
  StringAddr : String
  MacAddr : String
  Hostnames : List String
  Ports : List Port
  OS : List Lair.OS
deriving DecidableEq

structure Project where
  Id : String
  Tool : String
  Commands : List Lair.Command
  Hosts : List Host
deriving DecidableEq

/-- The legacy port-loop body for an open port: the Alive flag is set
after the state check, the product default is the lowercase "unknown",
and notes are attributed to the legacy tool constant. -/
def buildPort (p : Nmap.Port) : Port :=
  let port : Port :=
    { Port := p.PortId, Protocol := p.Protocol, Alive := false
      Service := "", Product := "", Notes := [] }
  let port := { port with Alive := true }
  let port :=
    if p.Service.Name ≠ "" then
      { port with
        Service := p.Service.Name
        Product :=
          if p.Service.Product ≠ "" then
            if p.Service.Version ≠ "" then
              p.Service.Product ++ " " ++ p.Service.Version
            else p.Service.Product
          else "unknown" }
    else port
  { port with
    Notes := p.Scripts.map (fun s =>
      { Title := s.Id, Content := s.Output, LastModifiedBy := TOOL }) }

def addPort (host : Host) (p : Nmap.Port) : Host :=
  if p.State.State ≠ "open" then host
  else { host with Ports := host.Ports ++ [buildPort p] }

/-- The legacy host-loop body for a live host: Alive is set to true,
the same address switch fills StringAddr/MacAddr, and the OS record is
appended to a list. -/
def buildHost (h : Nmap.Host) : Host :=
  let addrs := h.Addresses.foldl scanAddress ("", "")
  let host : Host :=
    { Alive := true, StringAddr := addrs.1, MacAddr := addrs.2
      Hostnames := h.Hostnames.map Nmap.Hostname.Name
      Ports := [], OS := [] }
  let host := h.Ports.foldl addPort host
  match h.Os.OsMatches with
  | [] => host
  | m :: _ =>
    { host with
      OS := host.OS ++ [{ Tool := TOOL, Weight := OSWEIGHT, Fingerprint := m.Name }] }

def addHost (project : Project) (h : Nmap.Host) : Project :=
  if h.Status.State ≠ "up" then project
  else { project with Hosts := project.Hosts ++ [Legacy.buildHost h] }

/-- The legacy `buildProject` of the `main` package. Its Go error
result is always nil. -/
def buildProject (run : Nmap.Run) (projectId : String) : Project :=
  run.Hosts.foldl Legacy.addHost
    { Id := projectId, Tool := TOOL
      Commands := [{ Tool := TOOL, Command := run.Args }]
      Hosts := [] }

end Legacy

/-! ## Sample inputs used by closed theorems and witnesses -/

/-- An open tcp port 80 whose service has a name but no product. -/
def samplePortHttp : Nmap.Port :=
  { PortId := 80, Protocol := "tcp", State := { State := "open" }
    Service := { Name := "http", Product := "", Version := "" }, Scripts := [] }

/-- An open tcp port 80 with service name, product and version. -/
def samplePortApache : Nmap.Port :=
  { PortId := 80, Protocol := "tcp", State := { State := "open" }
    Service := { Name := "http", Product := "Apache", Version := "2.4" }, Scripts := [] }

/-- A filtered port: never emitted as a Service. -/
def samplePortFiltered : Nmap.Port :=
  { PortId := 443, Protocol := "tcp", State := { State := "filtered" }
    Service := { Name := "", Product := "", Version := "" }, Scripts := [] }

/-- An "up" host whose only port is filtered. -/
def sampleUpHost : Nmap.Host :=
  { Status := { State := "up" }
    Addresses := [{ Addr := "10.0.0.1", AddrType := "ipv4" }]
    Hostnames := [], Ports := [samplePortFiltered], Os := { OsMatches := [] } }

def sampleRun : Nmap.Run :=
  { Args := "nmap -sV 10.0.0.1", Hosts := [sampleUpHost] }

/-- An "up" host with one open port whose service has a name but no
product, used to separate the two Mapper variants. -/
def sampleHost9 : Nmap.Host :=
  { Status := { State := "up" }
    Addresses := [{ Addr := "10.0.0.1", AddrType := "ipv4" }]
    Hostnames := [], Ports := [samplePortHttp], Os := { OsMatches := [] } }

def sampleRun9 : Nmap.Run :=
  { Args := "nmap 10.0.0.1", Hosts := [sampleHost9] }

/-- Claim C9: on a report with one up host and one open port whose
service has a name but no product, the legacy variant and the newest
variant produce non-equivalent projects: the legacy one attributes
"Nmap", defaults the product to "unknown" and sets Alive on host and
port, while the newest one attributes "nmap", defaults to "Unknown" and
its record shapes carry no Alive flag. -/
theorem C9_variants_not_equivalent :
    (Legacy.buildProject sampleRun9 "p1").Tool = "Nmap" ∧
    (BuildProject sampleRun9 "p1" []).Tool = "nmap" ∧
    (Legacy.buildProject sampleRun9 "p1").Hosts =
      [{ Alive := true, StringAddr := "10.0.0.1", MacAddr := "", Hostnames := []
         Ports := [{ Port := 80, Protocol := "tcp", Alive := true, Service := "http"
                     Product := "unknown", Notes := [] }]
         OS := [] }] ∧
    (BuildProject sampleRun9 "p1" []).Hosts =
      [{ Tags := [], IPv4 := "10.0.0.1", MAC := "", Hostnames := []
         Services := [{ Port := 80, Protocol := "tcp", Service := "http"
                        Product := "Unknown", Notes := [] }]
         OS := { Tool := "", Weight := 0, Fingerprint := "" } }] :=
  ⟨rfl, rfl, by decide, by decide⟩

/-! ## The Importer: response interpretation, credential check, options -/

/-- The decoded JSON response body from the API server, the
`client.Response` shape: a status string and a message string. -/
structure ClientResponse where
  Status : String
  Message : String
deriving DecidableEq

/-- The outcome of interpreting a decoded server response: either the
run succeeded with the reported status, or the server signalled an
error and its message is surfaced. -/
inductive ImportOutcome where
  | success (status : String)
  | remoteError (message : String)
deriving DecidableEq

/-- The response interpretation performed after the import call in
`main`: a status equal to the literal "Error" is a fatal import failure
surfacing the server-supplied message; any other status is reported as
success. -/
def interpretImport (r : ClientResponse) : ImportOutcome :=
  if r.Status = "Error" then ImportOutcome.remoteError r.Message
  else ImportOutcome.success r.Status

/-- Claim C4: a decoded payload whose status is the literal "Error"
produces a RemoteError outcome carrying the server message verbatim,
and that outcome is distinguishable from every success outcome; any
other status produces success. -/
theorem C4_remote_error (m s : String) (hs : s ≠ "Error") :
    interpretImport { Status := "Error", Message := m } = ImportOutcome.remoteError m ∧
    interpretImport { Status := s, Message := m } = ImportOutcome.success s ∧
    ∀ status, ImportOutcome.remoteError m ≠ ImportOutcome.success status := by
  refine ⟨by simp [interpretImport], by simp [interpretImport, hs], by simp⟩

theorem C4_remote_error_witness :
    interpretImport { Status := "Error", Message := "duplicate project" } =
      ImportOutcome.remoteError "duplicate project" ∧
    interpretImport { Status := "Ok", Message := "duplicate project" } =
      ImportOutcome.success "Ok" :=
  ⟨(C4_remote_error "duplicate project" "Ok" (by decide)).1,
   (C4_remote_error "duplicate project" "Ok" (by decide)).2.1⟩

/-- The outcome of the `main` sequencing around the import call: either
the run aborts before the POST is issued, or the POST is performed with
the validated credentials and the built project. -/
inductive MainOutcome where
  | fatalBeforeImport (msg : String)
  | posted (user : String) (pass : String) (project : Legacy.Project)
deriving DecidableEq

/-- The credential handling and import sequencing of `main`: the
userinfo of the LAIR_API_SERVER URL is validated before the scan file
is read and before the POST is issued. `none` models a URL with no
userinfo at all, and a URL lacking a password yields the empty string
for it. Only the validated branch reaches the POST. -/
def mainImportFlow (userinfo : Option (String × String)) (run : Nmap.Run)
    (pid : String) : MainOutcome :=
  match userinfo with
  | none => MainOutcome.fatalBeforeImport "Missing username and/or password"
  | some (user, pass) =>
    if user = "" ∨ pass = "" then
      MainOutcome.fatalBeforeImport "Missing username and/or password"
    else MainOutcome.posted user pass (Legacy.buildProject run pid)

/-- Claim C5: whenever the supplied username or password is empty the
run fails before the POST is attempted: the outcome is the fatal
credential diagnostic and never the posted state. -/
theorem C5_empty_credentials_fail_before_post (user pass : String)
    (run : Nmap.Run) (pid : String) (hbad : user = "" ∨ pass = "") :
    mainImportFlow (some (user, pass)) run pid =
      MainOutcome.fatalBeforeImport "Missing username and/or password" := by
  simp only [mainImportFlow]
  rw [if_pos hbad]

theorem C5_empty_credentials_fail_before_post_witness :
    mainImportFlow (some ("", "secret")) sampleRun "pid" =
      MainOutcome.fatalBeforeImport "Missing username and/or password" :=
  C5_empty_credentials_fail_before_post "" "secret" sampleRun "pid" (Or.inl rfl)

/-- The `client.COptions` shape passed to the API client constructor. -/
structure COptions where
  User : String
  Password : String
  Host : String
  Scheme : String
  InsecureSkipVerify : Bool
deriving DecidableEq

/-- The `client.DOptions` import flags passed to the import call. -/
structure DOptions where
  ForcePorts : Bool
  LimitHosts : Bool
deriving DecidableEq

/-- The loop of `getOptions`: the variadic bools are consumed by index,
index 0 setting insecureSSL, 1 forcePorts, 2 limitHosts, and every
other index leaving the accumulators unchanged. -/
def getOptionsAux (insecureSSL forcePorts limitHosts : Bool) (ind : Nat)
    (opts : List Bool) : Bool × Bool × Bool :=
  match opts with
  | [] => (insecureSSL, forcePorts, limitHosts)
  | b :: rest =>
    if ind = 0 then getOptionsAux b forcePorts limitHosts (ind + 1) rest
    else if ind = 1 then getOptionsAux insecureSSL b limitHosts (ind + 1) rest
    else if ind = 2 then getOptionsAux insecureSSL forcePorts b (ind + 1) rest
    else getOptionsAux insecureSSL forcePorts limitHosts (ind + 1) rest

/-- `getOptions` of the `project` package: all three options default to
false. -/
def getOptions (opts : List Bool) : Bool × Bool × Bool :=
  getOptionsAux false false false 0 opts

/-- The client configuration built by `ImportProject` before the POST:
credentials, target host and scheme, and the TLS-verification toggle
from the first variadic option. -/
def importClientOptions (user pass uHost uScheme : String)
    (opts : List Bool) : COptions :=
  { User := user, Password := pass, Host := uHost, Scheme := uScheme
    InsecureSkipVerify := (getOptions opts).1 }

/-- The import flags built by `ImportProject` from the second and third
variadic options. -/
def importDOptions (opts : List Bool) : DOptions :=
  { ForcePorts := (getOptions opts).2.1, LimitHosts := (getOptions opts).2.2 }

theorem getOptionsAux_high (opts : List Bool) :
    ∀ (x y z : Bool) (ind : Nat), 3 ≤ ind →
    getOptionsAux x y z ind opts = (x, y, z) := by
  induction opts with
  | nil => intro x y z ind hind; rfl
  | cons b rest ih =>
    intro x y z ind hind
    have h0 : ¬ ind = 0 := by omega
    have h1 : ¬ ind = 1 := by omega
    have h2 : ¬ ind = 2 := by omega
    show (if ind = 0 then getOptionsAux b y z (ind + 1) rest
      else if ind = 1 then getOptionsAux x b z (ind + 1) rest
      else if ind = 2 then getOptionsAux x y b (ind + 1) rest
      else getOptionsAux x y z (ind + 1) rest) = (x, y, z)
    rw [if_neg h0, if_neg h1, if_neg h2]
    exact ih x y z (ind + 1) (by omega)

/-- Claim C10: the variadic options are read positionally as
(insecureSSL, forcePorts, limitHosts), each missing option defaults to
false, options beyond the third are ignored, and a call with no
options builds the client with InsecureSkipVerify false and with both
of the import flags off. -/
theorem C10_options_positional (user pass uHost uScheme : String) :
    getOptions [] = (false, false, false) ∧
    (∀ a, getOptions [a] = (a, false, false)) ∧
    (∀ a b, getOptions [a, b] = (a, b, false)) ∧
    (∀ a b c, getOptions [a, b, c] = (a, b, c)) ∧
    (∀ a b c rest, getOptions (a :: b :: c :: rest) = (a, b, c)) ∧
    importClientOptions user pass uHost uScheme [] =
      { User := user, Password := pass, Host := uHost, Scheme := uScheme
        InsecureSkipVerify := false } ∧
    importDOptions [] = { ForcePorts := false, LimitHosts := false } := by
  refine ⟨rfl, fun a => rfl, fun a b => rfl, fun a b c => rfl,
    fun a b c rest => ?_, rfl, rfl⟩
  show getOptionsAux a b c 3 rest = (a, b, c)
  exact getOptionsAux_high rest a b c 3 (by omega)

/-! ## Witnesses on concrete inputs -/

/-- An "up" host with two OS candidates, used to check that only the
first one is kept. -/
def sampleOsHost : Nmap.Host :=
  { Status := { State := "up" }
    Addresses := [{ Addr := "10.0.0.2", AddrType := "ipv4" }]
    Hostnames := [], Ports := []
    Os := { OsMatches := [{ Name := "Linux 3.x" }, { Name := "FreeBSD" }] } }

theorem C2_service_emitted_iff_open_witness :
    buildHost [] sampleUpHost ∈ (BuildProject sampleRun "pid" []).Hosts ∧
    (buildHost [] sampleUpHost).Services = [] := by
  have h := C2_service_emitted_iff_open sampleRun "pid" [] sampleUpHost
    (by decide) (by decide)
  exact ⟨h.1, h.2.2 (by decide)⟩

theorem C3_product_rules_witness :
    (buildService samplePortHttp).Product = "Unknown" ∧
    (buildService samplePortApache).Product = "Apache 2.4" :=
  ⟨(C3_product_rules samplePortHttp).2.1 (by decide) (by decide),
   (C3_product_rules samplePortApache).2.2.2 (by decide) (by decide) (by decide)⟩

theorem C7_os_first_candidate_witness :
    (buildHost [] sampleOsHost).OS =
      { Tool := tool, Weight := osWeight, Fingerprint := "Linux 3.x" } ∧
    (buildHost [] sampleUpHost).OS = { Tool := "", Weight := 0, Fingerprint := "" } :=
  ⟨(C7_os_first_candidate [] sampleOsHost).1
      { Name := "Linux 3.x" } [{ Name := "FreeBSD" }] rfl,
   (C7_os_first_candidate [] sampleUpHost).2 rfl⟩

theorem C8_tags_uniform_witness :
    (buildHost ["web", "external"] sampleUpHost).Tags = ["web", "external"] :=
  C8_tags_uniform sampleRun "pid" ["web", "external"]
    (buildHost ["web", "external"] sampleUpHost) (by decide)
